import Mathlib

/-!
# Shallow embedding of the gpio_lab controller loop

This file embeds the cooperative polling state machine of
`src/gpio_lab/src/main.c` and proves the state-machine contract stated in
the specification.

Modelling choices:

* The C globals (`state`, `next_state`, `action_led_hz`, the two `struct
  led` records) together with the four physical output-pin levels form one
  `Config` record, threaded through pure functions.
* `current_time` (`k_uptime_get()`) is a parameter of each tick.
* The four edge flags set by the interrupt callbacks are delivered as a
  `Flags` input to each tick; the drain step returns the cleared flags, so
  flag consumption is itself part of the model.
* Hardware calls (`gpio_pin_set_dt`, `gpio_pin_toggle_dt`, ...) are
  modelled as infallible updates of the pin booleans, matching the spec's
  collaborator contract; the fallible one-time `INIT` setup is modelled
  separately by `initStep` over an explicit record of hardware result
  codes.
* C `int`/`int64_t` arithmetic is modelled on `Int` (no overflow at the
  magnitudes the loop manipulates); C integer division (truncation toward
  zero) is `Int.tdiv`.
-/

namespace GpioLab

/-- `enum states { INIT, BLINKING_ENTRY, BLINKING_RUN, SLEEP, RESET, ERROR }`. -/
inductive States where
  | INIT
  | BLINKING_ENTRY
  | BLINKING_RUN
  | SLEEP
  | RESET
  | ERROR
  deriving DecidableEq, Repr

/-- `#define HEARTBEAT_TOGGLE_INTERVAL_MS 500`. -/
def HEARTBEAT_TOGGLE_INTERVAL_MS : Int := 500

/-- `#define MS_PER_HZ 1000`. -/
def MS_PER_HZ : Int := 1000

/-- `#define LED_BLINK_FREQ_HZ 2` (default action frequency). -/
def LED_BLINK_FREQ_HZ : Int := 2

/-- `#define FREQ_UP_INC_HZ 1`. -/
def FREQ_UP_INC_HZ : Int := 1

/-- `#define FREQ_DOWN_INC_HZ 1`. -/
def FREQ_DOWN_INC_HZ : Int := 1

/-- `#define MAX_FREQ_HZ 5`. -/
def MAX_FREQ_HZ : Int := 5

/-- `#define MIN_FREQ_HZ 1`. -/
def MIN_FREQ_HZ : Int := 1

/-- `struct led { int64_t toggle_time; bool illuminated; }`. -/
structure Led where
  toggle_time : Int
  illuminated : Bool
  deriving DecidableEq, Repr

/-- The four edge flags set by the button interrupt callbacks
(`sleep_button_event`, `up_button_event`, `down_button_event`,
`reset_button_event`). -/
structure Flags where
  sleep_button_event : Bool
  up_button_event : Bool
  down_button_event : Bool
  reset_button_event : Bool
  deriving DecidableEq, Repr

/-- All four flags false: no press pending. -/
def Flags.none : Flags :=
  { sleep_button_event := false
    up_button_event := false
    down_button_event := false
    reset_button_event := false }

/-- The mutable state of the controller loop: the C globals plus the four
physical output-pin levels (heartbeat LED, IV-pump LED, buzzer, error
LED). -/
structure Config where
  state : States
  next_state : States
  action_led_hz : Int
  heartbeat_led_status : Led
  iv_pump_led_status : Led
  heartbeat_pin : Bool
  iv_pump_pin : Bool
  buzzer_pin : Bool
  error_pin : Bool
  deriving DecidableEq, Repr

/-- `int heartbeat()`: toggle the heartbeat LED when strictly more than
`HEARTBEAT_TOGGLE_INTERVAL_MS` elapsed since its last toggle, recording the
toggle time and flipping the `illuminated` field. -/
def heartbeat (current_time : Int) (c : Config) : Config :=
  if current_time - c.heartbeat_led_status.toggle_time > HEARTBEAT_TOGGLE_INTERVAL_MS then
    { c with
        heartbeat_pin := !c.heartbeat_pin
        heartbeat_led_status :=
          { toggle_time := current_time
            illuminated := !c.heartbeat_led_status.illuminated } }
  else
    c

/-- `int actionLEDs()`: toggle the IV-pump LED and the buzzer together when
strictly more than `MS_PER_HZ / (action_led_hz * 2)` ms (C integer
division) elapsed since their last toggle. -/
def actionLEDs (current_time : Int) (c : Config) : Config :=
  let target_time_passed := Int.tdiv MS_PER_HZ (c.action_led_hz * 2)
  if current_time - c.iv_pump_led_status.toggle_time > target_time_passed then
    { c with
        iv_pump_pin := !c.iv_pump_pin
        buzzer_pin := !c.buzzer_pin
        iv_pump_led_status :=
          { toggle_time := current_time
            illuminated := !c.iv_pump_led_status.illuminated } }
  else
    c

/-- The `switch (state)` body of one loop iteration, on the success path of
every hardware call (the spec's infallible-collaborator abstraction; the
fallible `INIT` setup is modelled separately by `initStep`):

* `INIT`: configure the pins to their initial levels (heartbeat and
  IV-pump `GPIO_OUTPUT_ACTIVE`, buzzer and error `GPIO_OUTPUT_INACTIVE`)
  and set `next_state = BLINKING_RUN`;
* `BLINKING_ENTRY`: heartbeat, re-enable button interrupts, set the pump
  pin from `iv_pump_led_status.illuminated` and the buzzer to its
  negation, clear the error pin, `next_state = BLINKING_RUN`;
* `BLINKING_RUN`: heartbeat then `actionLEDs` (leaves `next_state`
  untouched);
* `ERROR`: heartbeat, disable the three mutable-rate interrupts, force
  pump and buzzer pins off (also clearing the pump record's `illuminated`
  field), error pin on, `next_state = ERROR`;
* `RESET`: heartbeat, restore `action_led_hz` to `LED_BLINK_FREQ_HZ`,
  `next_state = BLINKING_ENTRY`;
* `SLEEP`: heartbeat, disable the frequency interrupts, force pump and
  buzzer pins off, `next_state = SLEEP`. -/
def stateBody (current_time : Int) (c : Config) : Config :=
  match c.state with
  | States.INIT =>
      { c with
          heartbeat_pin := true
          iv_pump_pin := true
          buzzer_pin := false
          error_pin := false
          next_state := States.BLINKING_RUN }
  | States.BLINKING_ENTRY =>
      let c1 := heartbeat current_time c
      { c1 with
          iv_pump_pin := c1.iv_pump_led_status.illuminated
          buzzer_pin := !c1.iv_pump_led_status.illuminated
          error_pin := false
          next_state := States.BLINKING_RUN }
  | States.BLINKING_RUN =>
      actionLEDs current_time (heartbeat current_time c)
  | States.ERROR =>
      let c1 := heartbeat current_time c
      { c1 with
          iv_pump_pin := false
          iv_pump_led_status := { c1.iv_pump_led_status with illuminated := false }
          buzzer_pin := false
          error_pin := true
          next_state := States.ERROR }
  | States.RESET =>
      let c1 := heartbeat current_time c
      { c1 with
          action_led_hz := LED_BLINK_FREQ_HZ
          next_state := States.BLINKING_ENTRY }
  | States.SLEEP =>
      let c1 := heartbeat current_time c
      { c1 with
          iv_pump_pin := false
          buzzer_pin := false
          next_state := States.SLEEP }

/-- The `/* CHECK BUTTON CALLBACKS */` block: drain the four edge flags in
the source's fixed order — sleep, frequency-up, frequency-down, the
frequency bound check, reset — each handler clearing its flag, and return
the updated config together with the cleared flags. -/
def drainEvents (c : Config) (fl : Flags) : Config × Flags :=
  let p1 :=
    if fl.sleep_button_event then
      ({ c with
           next_state :=
             if c.state = States.SLEEP then States.BLINKING_ENTRY else States.SLEEP },
       { fl with sleep_button_event := false })
    else
      (c, fl)
  let p2 :=
    if p1.2.up_button_event then
      ({ p1.1 with action_led_hz := p1.1.action_led_hz + FREQ_UP_INC_HZ },
       { p1.2 with up_button_event := false })
    else
      p1
  let p3 :=
    if p2.2.down_button_event then
      ({ p2.1 with action_led_hz := p2.1.action_led_hz - FREQ_DOWN_INC_HZ },
       { p2.2 with down_button_event := false })
    else
      p2
  let c4 :=
    if (p3.1.action_led_hz < MIN_FREQ_HZ ∨ p3.1.action_led_hz > MAX_FREQ_HZ)
        ∧ p3.1.state ≠ States.ERROR then
      { p3.1 with next_state := States.ERROR }
    else
      p3.1
  if p3.2.reset_button_event then
    ({ c4 with next_state := States.RESET }, { p3.2 with reset_button_event := false })
  else
    (c4, p3.2)

/-- One iteration of the `while (1)` loop: state body, event drain, then
the commit `state = next_state`. Returns the new config and the cleared
flags. -/
def tick (current_time : Int) (fl : Flags) (c : Config) : Config × Flags :=
  let c1 := stateBody current_time c
  let p := drainEvents c1 fl
  ({ p.1 with state := p.1.next_state }, p.2)

/-- Run the loop over a list of ticks, each given by its `k_uptime_get()`
value and the edge flags pending at that tick. -/
def run (inputs : List (Int × Flags)) (c : Config) : Config :=
  inputs.foldl (fun c tf => (tick tf.1 tf.2 c).1) c

/-- The initial values of the C globals: `state = next_state = INIT`,
`action_led_hz = LED_BLINK_FREQ_HZ`, both LED records at toggle time 0 and
illuminated, pins at the levels the `INIT` configuration establishes. -/
def initialConfig : Config :=
  { state := States.INIT
    next_state := States.INIT
    action_led_hz := LED_BLINK_FREQ_HZ
    heartbeat_led_status := { toggle_time := 0, illuminated := true }
    iv_pump_led_status := { toggle_time := 0, illuminated := true }
    heartbeat_pin := true
    iv_pump_pin := true
    buzzer_pin := false
    error_pin := false }

/-- Number of ticks of an input list whose flags carry a frequency-up
press. -/
def countUp (inputs : List (Int × Flags)) : Int :=
  ((inputs.filter fun tf => tf.2.up_button_event).length : Int)

/-- Number of ticks of an input list whose flags carry a frequency-down
press. -/
def countDown (inputs : List (Int × Flags)) : Int :=
  ((inputs.filter fun tf => tf.2.down_button_event).length : Int)

/-- An input list that carries no sleep press and no reset press. -/
def noSleepReset (inputs : List (Int × Flags)) : Prop :=
  ∀ tf ∈ inputs, tf.2.sleep_button_event = false ∧ tf.2.reset_button_event = false

instance (inputs : List (Int × Flags)) : Decidable (noSleepReset inputs) := by
  unfold noSleepReset
  infer_instance

/-- Result codes of the fallible hardware calls made by the `INIT` case of
`main`, in source order: `device_is_ready` for the gpio interface, the
four button `gpio_pin_configure_dt` calls, per button the
`gpio_pin_interrupt_configure_dt` and `gpio_add_callback_dt` calls, and
the four LED `gpio_pin_configure_dt` calls. A negative code is a
failure. -/
structure InitHw where
  device_ready : Bool
  cfg_sleep_button : Int
  cfg_freq_up_button : Int
  cfg_freq_down_button : Int
  cfg_reset_button : Int
  irq_sleep_button : Int
  add_cb_sleep_button : Int
  irq_freq_up_button : Int
  add_cb_freq_up_button : Int
  irq_freq_down_button : Int
  add_cb_freq_down_button : Int
  irq_reset_button : Int
  add_cb_reset_button : Int
  cfg_heartbeat_led : Int
  cfg_iv_pump_led : Int
  cfg_buzzer_led : Int
  cfg_error_led : Int
  deriving DecidableEq, Repr

/-- The `INIT` case of `main` over explicit hardware result codes:
`.error e` means `main` executes `return e`; `.ok s` means the case falls
through with `next_state = s`. Faithful to the source: a failed
`device_is_ready` returns `-1`; a failed button or LED
`gpio_pin_configure_dt` returns its code; failed
`gpio_pin_interrupt_configure_dt` and `gpio_add_callback_dt` calls are
only logged and do not return. -/
def initStep (hw : InitHw) : Except Int States :=
  if !hw.device_ready then Except.error (-1)
  else if hw.cfg_sleep_button < 0 then Except.error hw.cfg_sleep_button
  else if hw.cfg_freq_up_button < 0 then Except.error hw.cfg_freq_up_button
  else if hw.cfg_freq_down_button < 0 then Except.error hw.cfg_freq_down_button
  else if hw.cfg_reset_button < 0 then Except.error hw.cfg_reset_button
  else if hw.cfg_heartbeat_led < 0 then Except.error hw.cfg_heartbeat_led
  else if hw.cfg_iv_pump_led < 0 then Except.error hw.cfg_iv_pump_led
  else if hw.cfg_buzzer_led < 0 then Except.error hw.cfg_buzzer_led
  else if hw.cfg_error_led < 0 then Except.error hw.cfg_error_led
  else Except.ok States.BLINKING_RUN

/-! ### Derived characterizations and concrete inputs

The next definitions are proof infrastructure: closed forms of the drain
step and the tick, derived from (and proved equal to) the embedded source
functions above, plus the concrete flag sets and configurations the
witnesses and counterexamples evaluate. -/

/-- The frequency after the drain step: the up handler adds
`FREQ_UP_INC_HZ` when its flag is set, the down handler subtracts
`FREQ_DOWN_INC_HZ` when its flag is set. -/
def drainHz (c : Config) (fl : Flags) : Int :=
  c.action_led_hz + (if fl.up_button_event then FREQ_UP_INC_HZ else 0)
    - (if fl.down_button_event then FREQ_DOWN_INC_HZ else 0)

/-- The `next_state` value the state body leaves behind, per state. -/
def bodyNext (c : Config) : States :=
  match c.state with
  | States.INIT => States.BLINKING_RUN
  | States.BLINKING_ENTRY => States.BLINKING_RUN
  | States.BLINKING_RUN => c.next_state
  | States.ERROR => States.ERROR
  | States.RESET => States.BLINKING_ENTRY
  | States.SLEEP => States.SLEEP

/-- The frequency after a whole tick: `RESET`'s body first restores the
default, then the up/down handlers apply their increments. -/
def tickHz (c : Config) (fl : Flags) : Int :=
  (if c.state = States.RESET then LED_BLINK_FREQ_HZ else c.action_led_hz)
    + (if fl.up_button_event then FREQ_UP_INC_HZ else 0)
    - (if fl.down_button_event then FREQ_DOWN_INC_HZ else 0)

/-- Flags with only the sleep press pending. -/
def pressSleep : Flags := { Flags.none with sleep_button_event := true }

/-- Flags with only the frequency-up press pending. -/
def pressUp : Flags := { Flags.none with up_button_event := true }

/-- Flags with only the frequency-down press pending. -/
def pressDown : Flags := { Flags.none with down_button_event := true }

/-- Flags with only the reset press pending. -/
def pressReset : Flags := { Flags.none with reset_button_event := true }

/-- A `BLINKING_RUN` configuration at the default frequency. -/
def runConfig : Config :=
  { initialConfig with state := States.BLINKING_RUN, next_state := States.BLINKING_RUN }

/-- An `ERROR` configuration with the frequency stuck at 6. -/
def errorConfig : Config :=
  { initialConfig with
      state := States.ERROR, next_state := States.ERROR, action_led_hz := 6 }

/-- A `SLEEP` configuration at frequency 3. -/
def sleepConfig : Config :=
  { initialConfig with
      state := States.SLEEP, next_state := States.SLEEP, action_led_hz := 3 }

/-- Hardware result codes where every call succeeds except the
`gpio_pin_interrupt_configure_dt` call for the sleep button. -/
def irqFailHw : InitHw :=
  { device_ready := true
    cfg_sleep_button := 0
    cfg_freq_up_button := 0
    cfg_freq_down_button := 0
    cfg_reset_button := 0
    irq_sleep_button := -1
    add_cb_sleep_button := 0
    irq_freq_up_button := 0
    add_cb_freq_up_button := 0
    irq_freq_down_button := 0
    add_cb_freq_down_button := 0
    irq_reset_button := 0
    add_cb_reset_button := 0
    cfg_heartbeat_led := 0
    cfg_iv_pump_led := 0
    cfg_buzzer_led := 0
    cfg_error_led := 0 }

/-- Hardware result codes where every call succeeds. -/
def allOkHw : InitHw :=
  { irqFailHw with irq_sleep_button := 0 }

/-! ## Helper lemmas: field-level characterizations of the embedded code -/

theorem heartbeat_state (t : Int) (c : Config) : (heartbeat t c).state = c.state := by
  unfold heartbeat; split <;> rfl

theorem heartbeat_next_state (t : Int) (c : Config) :
    (heartbeat t c).next_state = c.next_state := by
  unfold heartbeat; split <;> rfl

theorem heartbeat_hz (t : Int) (c : Config) :
    (heartbeat t c).action_led_hz = c.action_led_hz := by
  unfold heartbeat; split <;> rfl

theorem heartbeat_pump_status (t : Int) (c : Config) :
    (heartbeat t c).iv_pump_led_status = c.iv_pump_led_status := by
  unfold heartbeat; split <;> rfl

theorem heartbeat_pump_pin (t : Int) (c : Config) :
    (heartbeat t c).iv_pump_pin = c.iv_pump_pin := by
  unfold heartbeat; split <;> rfl

theorem heartbeat_buzzer_pin (t : Int) (c : Config) :
    (heartbeat t c).buzzer_pin = c.buzzer_pin := by
  unfold heartbeat; split <;> rfl

theorem heartbeat_hb_fields (t : Int) (c : Config) :
    (heartbeat t c).heartbeat_pin
        = (if t - c.heartbeat_led_status.toggle_time > HEARTBEAT_TOGGLE_INTERVAL_MS
           then !c.heartbeat_pin else c.heartbeat_pin)
      ∧ (heartbeat t c).heartbeat_led_status
        = (if t - c.heartbeat_led_status.toggle_time > HEARTBEAT_TOGGLE_INTERVAL_MS
           then { toggle_time := t, illuminated := !c.heartbeat_led_status.illuminated }
           else c.heartbeat_led_status) := by
  unfold heartbeat; split <;> simp_all

theorem actionLEDs_state (t : Int) (c : Config) : (actionLEDs t c).state = c.state := by
  unfold actionLEDs; dsimp only; split <;> rfl

theorem actionLEDs_next_state (t : Int) (c : Config) :
    (actionLEDs t c).next_state = c.next_state := by
  unfold actionLEDs; dsimp only; split <;> rfl

theorem actionLEDs_hz (t : Int) (c : Config) :
    (actionLEDs t c).action_led_hz = c.action_led_hz := by
  unfold actionLEDs; dsimp only; split <;> rfl

theorem actionLEDs_hb_status (t : Int) (c : Config) :
    (actionLEDs t c).heartbeat_led_status = c.heartbeat_led_status := by
  unfold actionLEDs; dsimp only; split <;> rfl

theorem actionLEDs_hb_pin (t : Int) (c : Config) :
    (actionLEDs t c).heartbeat_pin = c.heartbeat_pin := by
  unfold actionLEDs; dsimp only; split <;> rfl

theorem actionLEDs_pump_fields (t : Int) (c : Config) :
    (actionLEDs t c).iv_pump_pin
        = (if t - c.iv_pump_led_status.toggle_time
              > Int.tdiv MS_PER_HZ (c.action_led_hz * 2)
           then !c.iv_pump_pin else c.iv_pump_pin)
      ∧ (actionLEDs t c).buzzer_pin
        = (if t - c.iv_pump_led_status.toggle_time
              > Int.tdiv MS_PER_HZ (c.action_led_hz * 2)
           then !c.buzzer_pin else c.buzzer_pin)
      ∧ (actionLEDs t c).iv_pump_led_status
        = (if t - c.iv_pump_led_status.toggle_time
              > Int.tdiv MS_PER_HZ (c.action_led_hz * 2)
           then { toggle_time := t, illuminated := !c.iv_pump_led_status.illuminated }
           else c.iv_pump_led_status) := by
  unfold actionLEDs; dsimp only; split <;> simp_all

theorem stateBody_state (t : Int) (c : Config) : (stateBody t c).state = c.state := by
  unfold stateBody
  cases h : c.state <;> simp [h, heartbeat_state, actionLEDs_state]

theorem stateBody_hz (t : Int) (c : Config) :
    (stateBody t c).action_led_hz
      = if c.state = States.RESET then LED_BLINK_FREQ_HZ else c.action_led_hz := by
  unfold stateBody
  cases h : c.state <;> simp [h, heartbeat_hz, actionLEDs_hz]

theorem stateBody_next_state (t : Int) (c : Config) :
    (stateBody t c).next_state = bodyNext c := by
  unfold stateBody bodyNext
  cases h : c.state <;> simp [h, heartbeat_next_state, actionLEDs_next_state]

theorem drain_flags (c : Config) (fl : Flags) : (drainEvents c fl).2 = Flags.none := by
  cases fl with
  | mk s u d r =>
      cases s <;> cases u <;> cases d <;> cases r <;>
        simp [drainEvents, Flags.none] <;> try (split <;> rfl)

theorem drain_state (c : Config) (fl : Flags) : (drainEvents c fl).1.state = c.state := by
  cases fl with
  | mk s u d r =>
      cases s <;> cases u <;> cases d <;> cases r <;>
        simp [drainEvents] <;> try (split <;> rfl)

theorem drain_hz (c : Config) (fl : Flags) :
    (drainEvents c fl).1.action_led_hz = drainHz c fl := by
  cases fl with
  | mk s u d r =>
      cases s <;> cases u <;> cases d <;> cases r <;>
        simp [drainEvents, drainHz] <;> try (split <;> rfl)

theorem drain_next_state (c : Config) (fl : Flags) :
    (drainEvents c fl).1.next_state
      = if fl.reset_button_event then States.RESET
        else if (drainHz c fl < MIN_FREQ_HZ ∨ drainHz c fl > MAX_FREQ_HZ)
            ∧ c.state ≠ States.ERROR then States.ERROR
        else if fl.sleep_button_event then
          (if c.state = States.SLEEP then States.BLINKING_ENTRY else States.SLEEP)
        else c.next_state := by
  cases fl with
  | mk s u d r =>
      cases s <;> cases u <;> cases d <;> cases r <;>
        simp [drainEvents, drainHz] <;> try (split <;> simp_all)

theorem drain_hb_status (c : Config) (fl : Flags) :
    (drainEvents c fl).1.heartbeat_led_status = c.heartbeat_led_status := by
  cases fl with
  | mk s u d r =>
      cases s <;> cases u <;> cases d <;> cases r <;>
        simp [drainEvents] <;> try (split <;> rfl)

theorem drain_hb_pin (c : Config) (fl : Flags) :
    (drainEvents c fl).1.heartbeat_pin = c.heartbeat_pin := by
  cases fl with
  | mk s u d r =>
      cases s <;> cases u <;> cases d <;> cases r <;>
        simp [drainEvents] <;> try (split <;> rfl)

theorem drain_pump_status (c : Config) (fl : Flags) :
    (drainEvents c fl).1.iv_pump_led_status = c.iv_pump_led_status := by
  cases fl with
  | mk s u d r =>
      cases s <;> cases u <;> cases d <;> cases r <;>
        simp [drainEvents] <;> try (split <;> rfl)

theorem drain_pump_pin (c : Config) (fl : Flags) :
    (drainEvents c fl).1.iv_pump_pin = c.iv_pump_pin := by
  cases fl with
  | mk s u d r =>
      cases s <;> cases u <;> cases d <;> cases r <;>
        simp [drainEvents] <;> try (split <;> rfl)

theorem drain_buzzer_pin (c : Config) (fl : Flags) :
    (drainEvents c fl).1.buzzer_pin = c.buzzer_pin := by
  cases fl with
  | mk s u d r =>
      cases s <;> cases u <;> cases d <;> cases r <;>
        simp [drainEvents] <;> try (split <;> rfl)

theorem tick_next_eq_state (t : Int) (fl : Flags) (c : Config) :
    (tick t fl c).1.next_state = (tick t fl c).1.state := rfl

theorem tick_flags (t : Int) (fl : Flags) (c : Config) :
    (tick t fl c).2 = Flags.none :=
  drain_flags (stateBody t c) fl

theorem tick_hz (t : Int) (fl : Flags) (c : Config) :
    (tick t fl c).1.action_led_hz = tickHz c fl := by
  show (drainEvents (stateBody t c) fl).1.action_led_hz = _
  rw [drain_hz]
  unfold drainHz tickHz
  rw [stateBody_hz]

theorem tick_state_char (t : Int) (fl : Flags) (c : Config) :
    (tick t fl c).1.state
      = if fl.reset_button_event then States.RESET
        else if (tickHz c fl < MIN_FREQ_HZ ∨ tickHz c fl > MAX_FREQ_HZ)
            ∧ c.state ≠ States.ERROR then States.ERROR
        else if fl.sleep_button_event then
          (if c.state = States.SLEEP then States.BLINKING_ENTRY else States.SLEEP)
        else bodyNext c := by
  show (drainEvents (stateBody t c) fl).1.next_state = _
  rw [drain_next_state, stateBody_state, stateBody_next_state]
  have h : drainHz (stateBody t c) fl = tickHz c fl := by
    unfold drainHz tickHz
    rw [stateBody_hz]
  rw [h]

theorem stateBody_hb (t : Int) (c : Config) (h : c.state ≠ States.INIT) :
    (stateBody t c).heartbeat_pin = (heartbeat t c).heartbeat_pin
      ∧ (stateBody t c).heartbeat_led_status = (heartbeat t c).heartbeat_led_status := by
  unfold stateBody
  cases hst : c.state <;> simp_all [actionLEDs_hb_pin, actionLEDs_hb_status]

theorem stateBody_run (t : Int) (c : Config) (h : c.state = States.BLINKING_RUN) :
    stateBody t c = actionLEDs t (heartbeat t c) := by
  unfold stateBody
  rw [h]

theorem tick_hb_fields (t : Int) (fl : Flags) (c : Config) (h : c.state ≠ States.INIT) :
    (tick t fl c).1.heartbeat_pin = (heartbeat t c).heartbeat_pin
      ∧ (tick t fl c).1.heartbeat_led_status = (heartbeat t c).heartbeat_led_status := by
  have hp : (tick t fl c).1.heartbeat_pin = (stateBody t c).heartbeat_pin := by
    show (drainEvents (stateBody t c) fl).1.heartbeat_pin = _
    rw [drain_hb_pin]
  have hs : (tick t fl c).1.heartbeat_led_status
      = (stateBody t c).heartbeat_led_status := by
    show (drainEvents (stateBody t c) fl).1.heartbeat_led_status = _
    rw [drain_hb_status]
  rw [hp, hs]
  exact stateBody_hb t c h

theorem run_nil (c : Config) : run [] c = c := rfl

theorem run_cons (t : Int) (fl : Flags) (l : List (Int × Flags)) (c : Config) :
    run ((t, fl) :: l) c = run l (tick t fl c).1 := rfl

theorem run_append (a b : List (Int × Flags)) (c : Config) :
    run (a ++ b) c = run b (run a c) := by
  simp [run, List.foldl_append]

theorem countUp_cons (t : Int) (fl : Flags) (l : List (Int × Flags)) :
    countUp ((t, fl) :: l) = (if fl.up_button_event then 1 else 0) + countUp l := by
  unfold countUp
  cases h : fl.up_button_event <;> simp [List.filter_cons, h] <;> push_cast <;> ring

theorem countDown_cons (t : Int) (fl : Flags) (l : List (Int × Flags)) :
    countDown ((t, fl) :: l) = (if fl.down_button_event then 1 else 0) + countDown l := by
  unfold countDown
  cases h : fl.down_button_event <;> simp [List.filter_cons, h] <;> push_cast <;> ring

/-- `ERROR` is absorbing across ticks whose flags carry neither a sleep
nor a reset press. -/
theorem error_stays (t : Int) (fl : Flags) (c : Config) (h : c.state = States.ERROR)
    (hs : fl.sleep_button_event = false) (hr : fl.reset_button_event = false) :
    (tick t fl c).1.state = States.ERROR := by
  rw [tick_state_char, hs, hr]
  simp [h, bodyNext]

/-- A tick with no sleep and no reset press whose final frequency is out
of `[1,5]` commits `ERROR`. -/
theorem becomes_error (t : Int) (fl : Flags) (c : Config)
    (hs : fl.sleep_button_event = false) (hr : fl.reset_button_event = false)
    (hout : (tick t fl c).1.action_led_hz < MIN_FREQ_HZ
        ∨ (tick t fl c).1.action_led_hz > MAX_FREQ_HZ) :
    (tick t fl c).1.state = States.ERROR := by
  rw [tick_hz] at hout
  rw [tick_state_char, hs, hr]
  by_cases he : c.state = States.ERROR
  · simp [he, bodyNext]
  · have hc : (tickHz c fl < MIN_FREQ_HZ ∨ tickHz c fl > MAX_FREQ_HZ)
        ∧ c.state ≠ States.ERROR := ⟨hout, he⟩
    simp [hc]

/-- Configurations whose state is neither `RESET` nor `SLEEP` and whose
pending `next_state` equals the committed state. Preserved by any tick
that carries neither a sleep nor a reset press. -/
def okSR (c : Config) : Prop :=
  c.state ≠ States.RESET ∧ c.state ≠ States.SLEEP ∧ c.next_state = c.state

theorem tick_okSR (t : Int) (fl : Flags) (c : Config) (h : okSR c)
    (hs : fl.sleep_button_event = false) (hr : fl.reset_button_event = false) :
    okSR (tick t fl c).1 := by
  obtain ⟨h1, h2, h3⟩ := h
  refine ⟨?_, ?_, tick_next_eq_state t fl c⟩ <;>
  · rw [tick_state_char, hs, hr]
    simp only [Bool.false_eq_true, if_false]
    split
    · simp
    · unfold bodyNext
      cases hst : c.state <;> simp_all

theorem run_okSR_hz (l : List (Int × Flags)) :
    ∀ c : Config, okSR c → noSleepReset l →
      okSR (run l c)
        ∧ (run l c).action_led_hz = c.action_led_hz + countUp l - countDown l := by
  induction l with
  | nil =>
      intro c hc _
      refine ⟨hc, ?_⟩
      simp [run_nil, countUp, countDown]
  | cons tf l ih =>
      intro c hc hl
      obtain ⟨t, fl⟩ := tf
      have hmem : fl.sleep_button_event = false ∧ fl.reset_button_event = false :=
        hl (t, fl) (List.mem_cons_self _ _)
      have hok : okSR (tick t fl c).1 := tick_okSR t fl c hc hmem.1 hmem.2
      have hl2 : noSleepReset l := fun tf hm => hl tf (List.mem_cons_of_mem _ hm)
      have hrec := ih (tick t fl c).1 hok hl2
      rw [run_cons]
      refine ⟨hrec.1, ?_⟩
      rw [hrec.2, tick_hz]
      unfold tickHz
      rw [countUp_cons, countDown_cons]
      simp only [hc.1, if_false, FREQ_UP_INC_HZ, FREQ_DOWN_INC_HZ]
      ring

theorem run_error_stays (l : List (Int × Flags)) :
    ∀ c : Config, c.state = States.ERROR → noSleepReset l →
      (run l c).state = States.ERROR := by
  induction l with
  | nil =>
      intro c hc _
      simpa [run_nil] using hc
  | cons tf l ih =>
      intro c hc hl
      obtain ⟨t, fl⟩ := tf
      have hmem := hl (t, fl) (List.mem_cons_self _ _)
      rw [run_cons]
      exact ih _ (error_stays t fl c hc hmem.1 hmem.2)
        (fun tf hm => hl tf (List.mem_cons_of_mem _ hm))

/-- A tick committing `BLINKING_RUN` leaves the frequency inside
`[MIN_FREQ_HZ, MAX_FREQ_HZ]`. -/
theorem tick_run_in_range (t : Int) (fl : Flags) (c : Config)
    (h : (tick t fl c).1.state = States.BLINKING_RUN) :
    MIN_FREQ_HZ ≤ (tick t fl c).1.action_led_hz
      ∧ (tick t fl c).1.action_led_hz ≤ MAX_FREQ_HZ := by
  rw [tick_state_char] at h
  rw [tick_hz]
  cases hrb : fl.reset_button_event with
  | true =>
      rw [hrb] at h
      simp at h
  | false =>
      rw [hrb] at h
      simp only [Bool.false_eq_true, if_false] at h
      by_cases hb : (tickHz c fl < MIN_FREQ_HZ ∨ tickHz c fl > MAX_FREQ_HZ)
          ∧ c.state ≠ States.ERROR
      · rw [if_pos hb] at h
        exact absurd h (by decide)
      · rw [if_neg hb] at h
        by_cases he : c.state = States.ERROR
        · exfalso
          have hbn : bodyNext c = States.ERROR := by
            unfold bodyNext
            rw [he]
          rw [hbn] at h
          split at h
          · simp [he] at h
          · exact absurd h (by decide)
        · have hrange : ¬(tickHz c fl < MIN_FREQ_HZ ∨ tickHz c fl > MAX_FREQ_HZ) :=
            fun hcon => hb ⟨hcon, he⟩
          unfold MIN_FREQ_HZ MAX_FREQ_HZ at *
          omega

theorem run_in_range (l : List (Int × Flags)) :
    ∀ c : Config,
      (c.state = States.BLINKING_RUN →
        MIN_FREQ_HZ ≤ c.action_led_hz ∧ c.action_led_hz ≤ MAX_FREQ_HZ) →
      ((run l c).state = States.BLINKING_RUN →
        MIN_FREQ_HZ ≤ (run l c).action_led_hz
          ∧ (run l c).action_led_hz ≤ MAX_FREQ_HZ) := by
  induction l with
  | nil =>
      intro c hc
      simpa [run_nil] using hc
  | cons tf l ih =>
      intro c _
      obtain ⟨t, fl⟩ := tf
      rw [run_cons]
      exact ih (tick t fl c).1 (fun h => tick_run_in_range t fl c h)

/-! ## Claim theorems -/

/-- **C1.** For every finite sequence of ticks carrying only frequency-up
and frequency-down edge events, run from the initial configuration
(frequency 2): the frequency after the sequence equals
`2 + (#up) - (#down)` with no clamping; and if the frequency has left
`[1,5]` after some prefix, the committed state is `ERROR` from the end of
that prefix (the next tick) onwards, for as long as no reset event is
consumed (none occurs in these sequences). -/
theorem updown_frequency_error_latch (inputs : List (Int × Flags))
    (h : noSleepReset inputs) :
    (run inputs initialConfig).action_led_hz
        = LED_BLINK_FREQ_HZ + countUp inputs - countDown inputs
  ∧ (∀ p q, inputs = p ++ q →
      ((run p initialConfig).action_led_hz < MIN_FREQ_HZ
        ∨ (run p initialConfig).action_led_hz > MAX_FREQ_HZ) →
      ∀ r s, q = r ++ s → (run (p ++ r) initialConfig).state = States.ERROR) := by
  have hok : okSR initialConfig := by
    refine ⟨?_, ?_, rfl⟩ <;> decide
  constructor
  · exact (run_okSR_hz inputs initialConfig hok h).2
  · intro p q hpq hout r s hqrs
    have hp : noSleepReset p := by
      intro tf hm
      exact h tf (hpq ▸ List.mem_append_left q hm)
    have herr : (run p initialConfig).state = States.ERROR := by
      rcases List.eq_nil_or_concat p with hnil | ⟨L, e, hcat⟩
      · exfalso
        rw [hnil] at hout
        exact absurd hout (by decide)
      · obtain ⟨t, fl⟩ := e
        have hmem : (t, fl) ∈ p := by
          rw [hcat]
          simp [List.concat_eq_append]
        have hfl := hp (t, fl) hmem
        rw [hcat, List.concat_eq_append, run_append] at hout ⊢
        rw [run_cons, run_nil] at hout ⊢
        exact becomes_error t fl (run L initialConfig) hfl.1 hfl.2 hout
    have hr : noSleepReset r := by
      intro tf hm
      exact h tf (hpq ▸ List.mem_append_right p (hqrs ▸ List.mem_append_left s hm))
    rw [run_append]
    exact run_error_stays r (run p initialConfig) herr hr

/-- **C1 witness.** A concrete up/up/down sequence: final frequency is
`2 + 2 - 1`. -/
theorem updown_frequency_error_latch_witness :
    noSleepReset [((0 : Int), pressUp), (10, pressUp), (20, pressDown)]
      ∧ (run [((0 : Int), pressUp), (10, pressUp), (20, pressDown)]
            initialConfig).action_led_hz
          = LED_BLINK_FREQ_HZ
              + countUp [((0 : Int), pressUp), (10, pressUp), (20, pressDown)]
              - countDown [((0 : Int), pressUp), (10, pressUp), (20, pressDown)] :=
  ⟨by decide,
   (updown_frequency_error_latch
      [((0 : Int), pressUp), (10, pressUp), (20, pressDown)] (by decide)).1⟩

/-- **C2.** Within one tick's event drain, a reset press forces
`next_state = RESET` no matter what any other handler (including the
bound check) chose; and with no reset press, a post-drain frequency
outside `[1,5]` with the current state not `ERROR` forces
`next_state = ERROR`, overriding in particular any sleep-derived
transition from the same tick. -/
theorem drain_priority_overrides (c : Config) (fl : Flags) :
    (fl.reset_button_event = true → (drainEvents c fl).1.next_state = States.RESET)
  ∧ (fl.reset_button_event = false →
      ((drainEvents c fl).1.action_led_hz < MIN_FREQ_HZ
        ∨ (drainEvents c fl).1.action_led_hz > MAX_FREQ_HZ) →
      c.state ≠ States.ERROR →
      (drainEvents c fl).1.next_state = States.ERROR) := by
  constructor
  · intro h
    rw [drain_next_state, h]
    simp
  · intro h hout hne
    rw [drain_hz] at hout
    rw [drain_next_state, h]
    have hc : (drainHz c fl < MIN_FREQ_HZ ∨ drainHz c fl > MAX_FREQ_HZ)
        ∧ c.state ≠ States.ERROR := ⟨hout, hne⟩
    simp [hc]

/-- **C2 witness.** Reset wins over everything at a concrete input; and
with sleep and down pressed together at frequency 1, the bound check
overrides the sleep-derived transition. -/
theorem drain_priority_overrides_witness :
    (drainEvents runConfig pressReset).1.next_state = States.RESET
  ∧ (drainEvents { runConfig with action_led_hz := 1 }
        { pressDown with sleep_button_event := true }).1.next_state
      = States.ERROR := by
  constructor
  · exact (drain_priority_overrides runConfig pressReset).1 rfl
  · exact (drain_priority_overrides { runConfig with action_led_hz := 1 }
      { pressDown with sleep_button_event := true }).2 rfl (by decide) (by decide)

/-- **C4 counterexample.** From the initial configuration, two down
presses drive the loop into `ERROR`; a tick executed in `ERROR` whose
flags carry a pending sleep press (and no reset press) commits `SLEEP`,
not `ERROR` — so a reset edge event is not the only edge event that
redirects the committed state away from `ERROR`. -/
theorem error_sleep_escape_cex :
    (run [((0 : Int), pressDown), (10, pressDown)] initialConfig).state = States.ERROR
  ∧ pressSleep.reset_button_event = false
  ∧ (run [((0 : Int), pressDown), (10, pressDown), (20, pressSleep)]
        initialConfig).state = States.SLEEP := by
  decide

/-- **C4 amended.** From the `ERROR` state, the edge events that can
redirect the committed state away from `ERROR` are reset and sleep (a
sleep press can be pending on entry into `ERROR`, before the `ERROR` body
disables its interrupt): every tick executed in state `ERROR` whose flags
carry neither a reset press nor a sleep press commits `ERROR` again. -/
theorem error_self_loop_amended (t : Int) (fl : Flags) (c : Config)
    (h : c.state = States.ERROR) (hs : fl.sleep_button_event = false)
    (hr : fl.reset_button_event = false) :
    (tick t fl c).1.state = States.ERROR :=
  error_stays t fl c h hs hr

/-- **C4 amended, witness.** The `ERROR` configuration with frequency 6
self-loops on a quiet tick. -/
theorem error_self_loop_amended_witness :
    errorConfig.state = States.ERROR
  ∧ Flags.none.sleep_button_event = false
  ∧ Flags.none.reset_button_event = false
  ∧ (tick 0 Flags.none errorConfig).1.state = States.ERROR :=
  ⟨rfl, rfl, rfl, error_self_loop_amended 0 Flags.none errorConfig rfl rfl rfl⟩

/-- **C9.** Safety of the division in `actionLEDs`: in every configuration
reachable from the initial configuration (under arbitrary tick times and
edge flags) whose state is `BLINKING_RUN` — exactly the configurations in
which the next tick's state body executes `actionLEDs` — the frequency
lies in `[1,5]`, so the divisor `action_led_hz * 2` is nonzero. -/
theorem blinkrun_frequency_in_range (inputs : List (Int × Flags))
    (h : (run inputs initialConfig).state = States.BLINKING_RUN) :
    MIN_FREQ_HZ ≤ (run inputs initialConfig).action_led_hz
  ∧ (run inputs initialConfig).action_led_hz ≤ MAX_FREQ_HZ
  ∧ (run inputs initialConfig).action_led_hz * 2 ≠ 0 := by
  have hrange := run_in_range inputs initialConfig
    (fun hI => absurd hI (by decide)) h
  refine ⟨hrange.1, hrange.2, ?_⟩
  have h1 := hrange.1
  unfold MIN_FREQ_HZ at h1
  omega

/-- **C9 witness.** After one quiet tick the loop is in `BLINKING_RUN`
with the frequency in range and a nonzero divisor. -/
theorem blinkrun_frequency_in_range_witness :
    (run [((0 : Int), Flags.none)] initialConfig).state = States.BLINKING_RUN
  ∧ (MIN_FREQ_HZ ≤ (run [((0 : Int), Flags.none)] initialConfig).action_led_hz
      ∧ (run [((0 : Int), Flags.none)] initialConfig).action_led_hz ≤ MAX_FREQ_HZ
      ∧ (run [((0 : Int), Flags.none)] initialConfig).action_led_hz * 2 ≠ 0) :=
  ⟨by decide, blinkrun_frequency_in_range [((0 : Int), Flags.none)] (by decide)⟩

/-- **C10.** One tick's event drain consumes each pending flag exactly
once and leaves nothing pending: the returned flags are all false; the
current state is untouched; the frequency changes by exactly the pending
up/down increments (a false flag leaves it unaffected); and the resulting
`next_state` is fully characterized by the priority chain — reset wins,
else the bound check, else a pending sleep press toggles between `SLEEP`
and `BLINKING_ENTRY`, else the state body's choice stands. -/
theorem drain_consumes_flags_once (c : Config) (fl : Flags) :
    (drainEvents c fl).2 = Flags.none
  ∧ (drainEvents c fl).1.state = c.state
  ∧ (drainEvents c fl).1.action_led_hz
      = c.action_led_hz + (if fl.up_button_event then FREQ_UP_INC_HZ else 0)
        - (if fl.down_button_event then FREQ_DOWN_INC_HZ else 0)
  ∧ (drainEvents c fl).1.next_state
      = (if fl.reset_button_event then States.RESET
         else if (drainHz c fl < MIN_FREQ_HZ ∨ drainHz c fl > MAX_FREQ_HZ)
             ∧ c.state ≠ States.ERROR then States.ERROR
         else if fl.sleep_button_event then
           (if c.state = States.SLEEP then States.BLINKING_ENTRY else States.SLEEP)
         else c.next_state) :=
  ⟨drain_flags c fl, drain_state c fl, drain_hz c fl, drain_next_state c fl⟩

theorem stateBody_sleep (t : Int) (c : Config) (h : c.state = States.SLEEP) :
    stateBody t c
      = { heartbeat t c with
            iv_pump_pin := false
            buzzer_pin := false
            next_state := States.SLEEP } := by
  unfold stateBody
  rw [h]

/-- **C3.** A tick that consumes a reset edge event — from any state, any
frequency, and whatever other flags accompany it — commits `RESET`; after
two further quiet ticks the committed state is `BLINKING_RUN` and the
frequency equals the default 2 (the frequency is already 2 one tick after
the event). -/
theorem reset_recovers_within_two_ticks (c : Config) (fl : Flags) (t1 t2 t3 : Int)
    (h : fl.reset_button_event = true) :
    (run [(t2, Flags.none), (t3, Flags.none)] (tick t1 fl c).1).state
        = States.BLINKING_RUN
  ∧ (run [(t2, Flags.none), (t3, Flags.none)] (tick t1 fl c).1).action_led_hz
        = LED_BLINK_FREQ_HZ
  ∧ (run [(t2, Flags.none)] (tick t1 fl c).1).action_led_hz = LED_BLINK_FREQ_HZ := by
  have h1 : (tick t1 fl c).1.state = States.RESET := by
    rw [tick_state_char, h]
    simp
  have hz2eq : tickHz (tick t1 fl c).1 Flags.none = LED_BLINK_FREQ_HZ := by
    unfold tickHz
    simp [h1, Flags.none]
  have h2s : (tick t2 Flags.none (tick t1 fl c).1).1.state
      = States.BLINKING_ENTRY := by
    rw [tick_state_char, hz2eq]
    have hbn : bodyNext (tick t1 fl c).1 = States.BLINKING_ENTRY := by
      unfold bodyNext
      rw [h1]
    rw [hbn]
    simp [Flags.none, LED_BLINK_FREQ_HZ, MIN_FREQ_HZ, MAX_FREQ_HZ]
  have h2z : (tick t2 Flags.none (tick t1 fl c).1).1.action_led_hz
      = LED_BLINK_FREQ_HZ := by
    rw [tick_hz, hz2eq]
  have hz3eq : tickHz (tick t2 Flags.none (tick t1 fl c).1).1 Flags.none
      = LED_BLINK_FREQ_HZ := by
    unfold tickHz
    rw [h2s, h2z]
    simp [Flags.none]
  have h3s : (tick t3 Flags.none (tick t2 Flags.none (tick t1 fl c).1).1).1.state
      = States.BLINKING_RUN := by
    rw [tick_state_char, hz3eq]
    have hbn : bodyNext (tick t2 Flags.none (tick t1 fl c).1).1
        = States.BLINKING_RUN := by
      unfold bodyNext
      rw [h2s]
    rw [hbn]
    simp [Flags.none, LED_BLINK_FREQ_HZ, MIN_FREQ_HZ, MAX_FREQ_HZ]
  have h3z : (tick t3 Flags.none (tick t2 Flags.none (tick t1 fl c).1).1).1.action_led_hz
      = LED_BLINK_FREQ_HZ := by
    rw [tick_hz, hz3eq]
  rw [run_cons, run_cons, run_nil]
  exact ⟨h3s, h3z, by rw [run_cons, run_nil]; exact h2z⟩

/-- **C3 witness.** From the `ERROR` configuration with frequency stuck at
6, a reset press recovers to `BLINKING_RUN` at frequency 2 within two
ticks. -/
theorem reset_recovers_within_two_ticks_witness :
    pressReset.reset_button_event = true
  ∧ ((run [((10 : Int), Flags.none), (20, Flags.none)]
          (tick 0 pressReset errorConfig).1).state = States.BLINKING_RUN
      ∧ (run [((10 : Int), Flags.none), (20, Flags.none)]
            (tick 0 pressReset errorConfig).1).action_led_hz = LED_BLINK_FREQ_HZ
      ∧ (run [((10 : Int), Flags.none)]
            (tick 0 pressReset errorConfig).1).action_led_hz = LED_BLINK_FREQ_HZ) :=
  ⟨rfl, reset_recovers_within_two_ticks errorConfig pressReset 0 10 20 rfl⟩

/-- **C5 counterexample.** Two divergences from the claim: (a) the `INIT`
state's tick does not advance the heartbeat at all — from the initial
configuration, a first tick at time 1000 (elapsed 1000 ≥ 500) leaves the
heartbeat record and pin untouched; (b) in `BLINKING_RUN` a tick whose
elapsed time since the last heartbeat toggle is exactly 500 ms does not
toggle, although the claim's "at least 500 ms" says it must. -/
theorem heartbeat_claim_cex :
    initialConfig.state = States.INIT
  ∧ ((1000 : Int) - initialConfig.heartbeat_led_status.toggle_time
        ≥ HEARTBEAT_TOGGLE_INTERVAL_MS)
  ∧ (run [((1000 : Int), Flags.none)] initialConfig).heartbeat_led_status
      = initialConfig.heartbeat_led_status
  ∧ (run [((1000 : Int), Flags.none)] initialConfig).heartbeat_pin
      = initialConfig.heartbeat_pin
  ∧ runConfig.state = States.BLINKING_RUN
  ∧ ((500 : Int) - runConfig.heartbeat_led_status.toggle_time
        = HEARTBEAT_TOGGLE_INTERVAL_MS)
  ∧ (tick 500 Flags.none runConfig).1.heartbeat_led_status
      = runConfig.heartbeat_led_status
  ∧ (tick 500 Flags.none runConfig).1.heartbeat_pin = runConfig.heartbeat_pin := by
  decide

/-- **C5 amended.** In every state except `INIT`, each tick's state
behavior advances the heartbeat, and the heartbeat toggles exactly when
the elapsed time since its last heartbeat toggle is strictly greater than
500 ms. -/
theorem heartbeat_advance_amended (t : Int) (fl : Flags) (c : Config)
    (h : c.state ≠ States.INIT) :
    (tick t fl c).1.heartbeat_pin
        = (if t - c.heartbeat_led_status.toggle_time > HEARTBEAT_TOGGLE_INTERVAL_MS
           then !c.heartbeat_pin else c.heartbeat_pin)
  ∧ (tick t fl c).1.heartbeat_led_status
        = (if t - c.heartbeat_led_status.toggle_time > HEARTBEAT_TOGGLE_INTERVAL_MS
           then { toggle_time := t
                  illuminated := !c.heartbeat_led_status.illuminated }
           else c.heartbeat_led_status) := by
  have h1 := tick_hb_fields t fl c h
  have h2 := heartbeat_hb_fields t c
  exact ⟨h1.1.trans h2.1, h1.2.trans h2.2⟩

/-- **C5 amended, witness.** A `SLEEP` tick at elapsed 501 ms toggles the
heartbeat. -/
theorem heartbeat_advance_amended_witness :
    sleepConfig.state ≠ States.INIT
  ∧ ((tick 501 Flags.none sleepConfig).1.heartbeat_pin
        = (if (501 : Int) - sleepConfig.heartbeat_led_status.toggle_time
              > HEARTBEAT_TOGGLE_INTERVAL_MS
           then !sleepConfig.heartbeat_pin else sleepConfig.heartbeat_pin)
      ∧ (tick 501 Flags.none sleepConfig).1.heartbeat_led_status
        = (if (501 : Int) - sleepConfig.heartbeat_led_status.toggle_time
              > HEARTBEAT_TOGGLE_INTERVAL_MS
           then { toggle_time := (501 : Int)
                  illuminated := !sleepConfig.heartbeat_led_status.illuminated }
           else sleepConfig.heartbeat_led_status)) :=
  ⟨by decide, heartbeat_advance_amended 501 Flags.none sleepConfig (by decide)⟩

/-- **C6 counterexample.** In `BLINKING_RUN` at 2 Hz the half-period is
`1000 / (2*2) = 250` ms; a tick whose elapsed time since the pair's last
toggle is exactly 250 ms — "at least" the half-period, as the claim
demands — does not toggle the pair, because the source compares with a
strict `>`. -/
theorem action_pair_boundary_cex :
    runConfig.state = States.BLINKING_RUN
  ∧ runConfig.action_led_hz = 2
  ∧ Int.tdiv MS_PER_HZ (runConfig.action_led_hz * 2) = 250
  ∧ ((250 : Int) - runConfig.iv_pump_led_status.toggle_time
        ≥ Int.tdiv MS_PER_HZ (runConfig.action_led_hz * 2))
  ∧ (tick 250 Flags.none runConfig).1.iv_pump_pin = runConfig.iv_pump_pin
  ∧ (tick 250 Flags.none runConfig).1.buzzer_pin = runConfig.buzzer_pin
  ∧ (tick 250 Flags.none runConfig).1.iv_pump_led_status
      = runConfig.iv_pump_led_status := by
  decide

/-- **C6 amended.** In state `BLINKING_RUN`, on a tick at time `t` the
action pair (pump and buzzer together) toggles exactly when `t` minus the
pair's last toggle time is strictly greater than
`1000 / (BlinkFrequencyHz * 2)` ms (C integer division). -/
theorem action_pair_half_period_amended (t : Int) (fl : Flags) (c : Config)
    (h : c.state = States.BLINKING_RUN) :
    (tick t fl c).1.iv_pump_pin
        = (if t - c.iv_pump_led_status.toggle_time
              > Int.tdiv MS_PER_HZ (c.action_led_hz * 2)
           then !c.iv_pump_pin else c.iv_pump_pin)
  ∧ (tick t fl c).1.buzzer_pin
        = (if t - c.iv_pump_led_status.toggle_time
              > Int.tdiv MS_PER_HZ (c.action_led_hz * 2)
           then !c.buzzer_pin else c.buzzer_pin)
  ∧ (tick t fl c).1.iv_pump_led_status
        = (if t - c.iv_pump_led_status.toggle_time
              > Int.tdiv MS_PER_HZ (c.action_led_hz * 2)
           then { toggle_time := t
                  illuminated := !c.iv_pump_led_status.illuminated }
           else c.iv_pump_led_status) := by
  have h4 := actionLEDs_pump_fields t (heartbeat t c)
  rw [heartbeat_pump_status, heartbeat_hz, heartbeat_pump_pin,
    heartbeat_buzzer_pin] at h4
  refine ⟨?_, ?_, ?_⟩
  · show (drainEvents (stateBody t c) fl).1.iv_pump_pin = _
    rw [drain_pump_pin, stateBody_run t c h]
    exact h4.1
  · show (drainEvents (stateBody t c) fl).1.buzzer_pin = _
    rw [drain_buzzer_pin, stateBody_run t c h]
    exact h4.2.1
  · show (drainEvents (stateBody t c) fl).1.iv_pump_led_status = _
    rw [drain_pump_status, stateBody_run t c h]
    exact h4.2.2

/-- **C6 amended, witness.** At 2 Hz, elapsed 251 ms toggles the pair. -/
theorem action_pair_half_period_amended_witness :
    runConfig.state = States.BLINKING_RUN
  ∧ ((tick 251 Flags.none runConfig).1.iv_pump_pin
        = (if (251 : Int) - runConfig.iv_pump_led_status.toggle_time
              > Int.tdiv MS_PER_HZ (runConfig.action_led_hz * 2)
           then !runConfig.iv_pump_pin else runConfig.iv_pump_pin)
      ∧ (tick 251 Flags.none runConfig).1.buzzer_pin
        = (if (251 : Int) - runConfig.iv_pump_led_status.toggle_time
              > Int.tdiv MS_PER_HZ (runConfig.action_led_hz * 2)
           then !runConfig.buzzer_pin else runConfig.buzzer_pin)
      ∧ (tick 251 Flags.none runConfig).1.iv_pump_led_status
        = (if (251 : Int) - runConfig.iv_pump_led_status.toggle_time
              > Int.tdiv MS_PER_HZ (runConfig.action_led_hz * 2)
           then { toggle_time := (251 : Int)
                  illuminated := !runConfig.iv_pump_led_status.illuminated }
           else runConfig.iv_pump_led_status)) :=
  ⟨rfl, action_pair_half_period_amended 251 Flags.none runConfig rfl⟩

/-- **C7.** While the state is `SLEEP`, a tick forces the action-pair
pins off (they never toggle: the pump record is untouched), and the
`SLEEP` state body does not modify the frequency — it changes only by the
pending up/down flags; and a tick carrying exactly a sleep edge event
(with the frequency in range, so the bound check does not interfere)
toggles the committed state: to `BLINKING_ENTRY` when the current state
is `SLEEP` and to `SLEEP` otherwise. -/
theorem sleep_frame_and_toggle (t : Int) (fl : Flags) (c : Config) :
    (c.state = States.SLEEP →
        (tick t fl c).1.iv_pump_pin = false
      ∧ (tick t fl c).1.buzzer_pin = false
      ∧ (tick t fl c).1.iv_pump_led_status = c.iv_pump_led_status
      ∧ (tick t fl c).1.action_led_hz
          = c.action_led_hz + (if fl.up_button_event then FREQ_UP_INC_HZ else 0)
            - (if fl.down_button_event then FREQ_DOWN_INC_HZ else 0))
  ∧ (fl = pressSleep →
      MIN_FREQ_HZ ≤ c.action_led_hz → c.action_led_hz ≤ MAX_FREQ_HZ →
      (tick t fl c).1.state
        = (if c.state = States.SLEEP then States.BLINKING_ENTRY
           else States.SLEEP)) := by
  constructor
  · intro h
    have hsb := stateBody_sleep t c h
    refine ⟨?_, ?_, ?_, ?_⟩
    · show (drainEvents (stateBody t c) fl).1.iv_pump_pin = false
      rw [drain_pump_pin, hsb]
    · show (drainEvents (stateBody t c) fl).1.buzzer_pin = false
      rw [drain_buzzer_pin, hsb]
    · show (drainEvents (stateBody t c) fl).1.iv_pump_led_status
          = c.iv_pump_led_status
      rw [drain_pump_status, hsb]
      show (heartbeat t c).iv_pump_led_status = _
      rw [heartbeat_pump_status]
    · rw [tick_hz]
      unfold tickHz
      rw [h]
      simp
  · intro hfl h1 h2
    subst hfl
    have hz : tickHz c pressSleep
        = (if c.state = States.RESET then LED_BLINK_FREQ_HZ
           else c.action_led_hz) := by
      unfold tickHz
      simp [pressSleep, Flags.none]
    rw [tick_state_char, hz]
    have hcond :
        ¬(((if c.state = States.RESET then LED_BLINK_FREQ_HZ
              else c.action_led_hz) < MIN_FREQ_HZ
          ∨ (if c.state = States.RESET then LED_BLINK_FREQ_HZ
              else c.action_led_hz) > MAX_FREQ_HZ)
          ∧ c.state ≠ States.ERROR) := by
      intro hcon
      rcases hcon with ⟨hc, -⟩
      revert hc
      split
      · decide
      · intro hc
        unfold MIN_FREQ_HZ MAX_FREQ_HZ at *
        omega
    simp [pressSleep, Flags.none, hcond]

/-- **C7 witness.** A `SLEEP` tick carrying a sleep press: pins forced
off, frequency unchanged, and the committed state toggles to
`BLINKING_ENTRY`. -/
theorem sleep_frame_and_toggle_witness :
    sleepConfig.state = States.SLEEP
  ∧ (tick 0 pressSleep sleepConfig).1.iv_pump_pin = false
  ∧ (tick 0 pressSleep sleepConfig).1.action_led_hz
      = sleepConfig.action_led_hz
        + (if pressSleep.up_button_event then FREQ_UP_INC_HZ else 0)
        - (if pressSleep.down_button_event then FREQ_DOWN_INC_HZ else 0)
  ∧ (tick 0 pressSleep sleepConfig).1.state
      = (if sleepConfig.state = States.SLEEP then States.BLINKING_ENTRY
         else States.SLEEP) := by
  have hp := sleep_frame_and_toggle 0 pressSleep sleepConfig
  exact ⟨rfl, (hp.1 rfl).1, (hp.1 rfl).2.2.2, hp.2 rfl (by decide) (by decide)⟩

/-- **C8 counterexample.** Not every setup failure is fatal: with every
hardware call succeeding except the sleep button's interrupt
configuration (which fails with `-1`), the `INIT` case only logs the
failure and falls through with `next_state = BLINKING_RUN` instead of
terminating. -/
theorem init_nonfatal_irq_cex :
    irqFailHw.irq_sleep_button < 0
  ∧ initStep irqFailHw = Except.ok States.BLINKING_RUN :=
  ⟨by decide, rfl⟩

theorem initStep_ok_of (hw : InitHw)
    (h0 : hw.device_ready = true)
    (h1 : 0 ≤ hw.cfg_sleep_button) (h2 : 0 ≤ hw.cfg_freq_up_button)
    (h3 : 0 ≤ hw.cfg_freq_down_button) (h4 : 0 ≤ hw.cfg_reset_button)
    (h5 : 0 ≤ hw.cfg_heartbeat_led) (h6 : 0 ≤ hw.cfg_iv_pump_led)
    (h7 : 0 ≤ hw.cfg_buzzer_led) (h8 : 0 ≤ hw.cfg_error_led) :
    initStep hw = Except.ok States.BLINKING_RUN := by
  have n1 : ¬(hw.cfg_sleep_button < 0) := by omega
  have n2 : ¬(hw.cfg_freq_up_button < 0) := by omega
  have n3 : ¬(hw.cfg_freq_down_button < 0) := by omega
  have n4 : ¬(hw.cfg_reset_button < 0) := by omega
  have n5 : ¬(hw.cfg_heartbeat_led < 0) := by omega
  have n6 : ¬(hw.cfg_iv_pump_led < 0) := by omega
  have n7 : ¬(hw.cfg_buzzer_led < 0) := by omega
  have n8 : ¬(hw.cfg_error_led < 0) := by omega
  simp only [initStep, h0, Bool.not_true, Bool.false_eq_true, if_false,
    n1, n2, n3, n4, n5, n6, n7, n8]

theorem initStep_ok_inv (hw : InitHw)
    (h : initStep hw = Except.ok States.BLINKING_RUN) :
    hw.device_ready = true
      ∧ 0 ≤ hw.cfg_sleep_button ∧ 0 ≤ hw.cfg_freq_up_button
      ∧ 0 ≤ hw.cfg_freq_down_button ∧ 0 ≤ hw.cfg_reset_button
      ∧ 0 ≤ hw.cfg_heartbeat_led ∧ 0 ≤ hw.cfg_iv_pump_led
      ∧ 0 ≤ hw.cfg_buzzer_led ∧ 0 ≤ hw.cfg_error_led := by
  unfold initStep at h
  repeat' split at h
  all_goals try exact Except.noConfusion h
  refine ⟨?_, ?_, ?_, ?_, ?_, ?_, ?_, ?_, ?_⟩ <;> simp_all

theorem initStep_error_neg (hw : InitHw) (e : Int)
    (h : initStep hw = Except.error e) : e < 0 := by
  unfold initStep at h
  repeat' split at h
  all_goals simp_all
  all_goals omega

/-- **C8 amended.** `INIT` performs one-time setup and on success sets
`next_state = BLINKING_RUN`, skipping `BLINKING_ENTRY`; the fatal
failures — `main` returning a negative value — are exactly a failed
device-readiness check or a failed `gpio_pin_configure_dt` call (button
or LED); failed interrupt-configuration and callback-registration calls
are only logged and do not terminate the process. -/
theorem init_fatality_amended (hw : InitHw) :
    (initStep hw = Except.ok States.BLINKING_RUN
      ↔ hw.device_ready = true
        ∧ 0 ≤ hw.cfg_sleep_button ∧ 0 ≤ hw.cfg_freq_up_button
        ∧ 0 ≤ hw.cfg_freq_down_button ∧ 0 ≤ hw.cfg_reset_button
        ∧ 0 ≤ hw.cfg_heartbeat_led ∧ 0 ≤ hw.cfg_iv_pump_led
        ∧ 0 ≤ hw.cfg_buzzer_led ∧ 0 ≤ hw.cfg_error_led)
  ∧ (∀ e : Int, initStep hw = Except.error e → e < 0) := by
  refine ⟨⟨fun h => initStep_ok_inv hw h, fun h => ?_⟩,
    fun e h => initStep_error_neg hw e h⟩
  obtain ⟨h0, h1, h2, h3, h4, h5, h6, h7, h8⟩ := h
  exact initStep_ok_of hw h0 h1 h2 h3 h4 h5 h6 h7 h8

/-- **C8 amended, witness.** With every call succeeding, `INIT` falls
through to `BLINKING_RUN`. -/
theorem init_fatality_amended_witness :
    initStep allOkHw = Except.ok States.BLINKING_RUN :=
  (init_fatality_amended allOkHw).1.mpr (by decide)

end GpioLab
